import Mathlib

/-!
Verification of the ai-memo-app core logic: the summarize POST handler
(`app/api/summarize/route.ts`) and the memo detail modal component
(`src/components/MemoDetailModal.tsx`), shallowly embedded in Lean.

Modelling choices:
* JavaScript string-or-absent values (the `content` field of the parsed
  JSON body, the `GEMINI_API_KEY` environment variable) are `Option String`;
  JS truthiness on such a value (`!content`, `!apiKey`) is false exactly
  for a missing value or the empty string.
* The generative-AI provider call (`model.generateContent` followed by
  `response.text()`) is an input to the handler: it either succeeds with a
  text, throws an `Error` carrying a message, or throws a non-`Error` value.
* The handler records the list of prompts it sends to the provider, so
  that "exactly one prompt" is a statement about that list.
-/

/-- JS truthiness test for an optional string: `undefined` and `""` are
falsy, every non-empty string is truthy. -/
def jsFalsyStr : Option String → Bool
  | none => true
  | some s => s == ""

/-- The parsed request body of the summarize endpoint: either `request.json()`
rejected (invalid JSON, a `SyntaxError` carrying a message), or it produced an
object whose `content` field is absent or a string. -/
inductive RequestBody where
  | invalidJson (errMsg : String)
  | parsed (content : Option String)
deriving DecidableEq, Repr

/-- Outcome of the provider call `model.generateContent` / `response.text()`:
success with the response text, a thrown `Error` with its message, or a
thrown value that is not an `Error` instance. -/
inductive ProviderResult where
  | success (text : String)
  | errorWithMessage (msg : String)
  | errorNonError
deriving DecidableEq, Repr

/-- Whether the provider call succeeded. -/
def ProviderResult.isSuccess : ProviderResult → Bool
  | .success _ => true
  | _ => false

/-- The JSON body of a handler response: `\x7berror: string\x7d` or
`\x7bsummary: string\x7d`. -/
inductive ResponseBody where
  | errorBody (error : String)
  | summaryBody (summary : String)
deriving DecidableEq, Repr

/-- A handler response together with the prompts sent to the provider while
producing it. -/
structure PostResult where
  status : Nat
  body : ResponseBody
  promptsSent : List String
deriving DecidableEq, Repr

/-- The fixed Korean instruction prefixed to the user text in the prompt. -/
def fixedInstruction : String :=
  "다음 메모 내용을 3줄 이내로 간결하게 요약해줘:\n\n"

/-- The single prompt built by the handler: fixed instruction ++ user text. -/
def summarizePrompt (content : String) : String :=
  fixedInstruction ++ content

/-- The summarize POST handler of `app/api/summarize/route.ts`. Mirrors the
source: parse the body (a rejection is caught by the surrounding
`try`/`catch` and answered with 500); `if (!content)` return 400; read
`GEMINI_API_KEY`, `if (!apiKey)` return 500; otherwise send the single
prompt to the provider and return its text as `\x7bsummary\x7d` with 200,
or catch the thrown error as `\x7berror\x7d` with 500, using the `Error`
message when the thrown value is an `Error` and the fallback
"Failed to generate summary" otherwise. -/
def POST (geminiApiKey : Option String) (body : RequestBody)
    (provider : ProviderResult) : PostResult :=
  match body with
  | .invalidJson msg => ⟨500, .errorBody msg, []⟩
  | .parsed content =>
    if jsFalsyStr content then
      ⟨400, .errorBody "Content is required", []⟩
    else if jsFalsyStr geminiApiKey then
      ⟨500, .errorBody "GEMINI_API_KEY is not configured", []⟩
    else
      let prompt := summarizePrompt (content.getD "")
      match provider with
      | .success text => ⟨200, .summaryBody text, [prompt]⟩
      | .errorWithMessage msg => ⟨500, .errorBody msg, [prompt]⟩
      | .errorNonError => ⟨500, .errorBody "Failed to generate summary", [prompt]⟩

/-- C1: a parsed JSON body with no `content` value is answered with status
400 and a JSON error body, for every credential state and provider
behaviour — in particular the 400 client-error check fires even when the
`GEMINI_API_KEY` credential is also unconfigured. -/
theorem claim_C1_missing_content_400 (geminiApiKey : Option String)
    (provider : ProviderResult) :
    POST geminiApiKey (RequestBody.parsed none) provider =
      ⟨400, ResponseBody.errorBody "Content is required", []⟩ := by
  rfl

/-- C2: with a (truthy) content present, the handler answers 500 with a JSON
error body exactly when the credential is unconfigured or the provider call
fails; and when the credential is configured and the provider throws an
`Error`, the error body carries that underlying message. -/
theorem claim_C2_500_iff_credential_or_provider_failure
    (geminiApiKey : Option String) (c : String) (provider : ProviderResult)
    (hc : c ≠ "") :
    (((POST geminiApiKey (RequestBody.parsed (some c)) provider).status = 500 ∧
        ∃ e, (POST geminiApiKey (RequestBody.parsed (some c)) provider).body =
          ResponseBody.errorBody e) ↔
      (jsFalsyStr geminiApiKey = true ∨ provider.isSuccess = false)) ∧
    (jsFalsyStr geminiApiKey = false → ∀ m,
      provider = ProviderResult.errorWithMessage m →
      (POST geminiApiKey (RequestBody.parsed (some c)) provider).body =
        ResponseBody.errorBody m) := by
  have hfalsy : jsFalsyStr (some c) = false := by
    simp [jsFalsyStr, hc]
  constructor
  · cases hk : jsFalsyStr geminiApiKey <;> cases provider <;>
      simp [POST, hfalsy, hk, ProviderResult.isSuccess]
  · intro hk m hm
    subst hm
    simp [POST, hfalsy, hk]

/-- Witness for C2 at concrete inputs: unconfigured credential, content
"hello", provider would succeed. -/
theorem claim_C2_witness :
    (((POST none (RequestBody.parsed (some "hello"))
          (ProviderResult.success "ok")).status = 500 ∧
        ∃ e, (POST none (RequestBody.parsed (some "hello"))
            (ProviderResult.success "ok")).body = ResponseBody.errorBody e) ↔
      (jsFalsyStr none = true ∨ (ProviderResult.success "ok").isSuccess = false)) ∧
    (jsFalsyStr none = false → ∀ m,
      ProviderResult.success "ok" = ProviderResult.errorWithMessage m →
      (POST none (RequestBody.parsed (some "hello"))
          (ProviderResult.success "ok")).body = ResponseBody.errorBody m) :=
  claim_C2_500_iff_credential_or_provider_failure none "hello"
    (ProviderResult.success "ok") (by decide)

/-- C3: with truthy content, configured credential and a successful provider
call, the handler sends exactly one prompt — the fixed instruction
concatenated with the user text — and answers 200 with the provider's text
verbatim as the `summary` field. -/
theorem claim_C3_success_sends_one_prompt_verbatim_summary
    (key c text : String) (hkey : key ≠ "") (hc : c ≠ "") :
    POST (some key) (RequestBody.parsed (some c)) (ProviderResult.success text) =
      ⟨200, ResponseBody.summaryBody text, [fixedInstruction ++ c]⟩ := by
  simp [POST, jsFalsyStr, hkey, hc, summarizePrompt]

/-- Witness for C3 at concrete inputs. -/
theorem claim_C3_witness :
    POST (some "k") (RequestBody.parsed (some "note text"))
        (ProviderResult.success "short digest") =
      ⟨200, ResponseBody.summaryBody "short digest",
        [fixedInstruction ++ "note text"]⟩ :=
  claim_C3_success_sends_one_prompt_verbatim_summary "k" "note text"
    "short digest" (by decide) (by decide)

/-- C4 counterexample: the handler performs no non-emptiness check on the
provider's text — when the provider call succeeds with the empty string, the
endpoint returns status 200 with an empty summary, refuting the claim that
the returned summary is always non-empty on provider success. -/
theorem claim_C4_counterexample :
    (POST (some "k") (RequestBody.parsed (some "hello"))
        (ProviderResult.success "")).status = 200 ∧
    (POST (some "k") (RequestBody.parsed (some "hello"))
        (ProviderResult.success "")).body = ResponseBody.summaryBody "" ∧
    ¬ ("" : String) ≠ "" := by
  refine ⟨rfl, rfl, by simp⟩

/-- C4 (amended): with content present and a successful provider call, the
returned summary equals the provider's text verbatim, hence is non-empty
whenever the provider's text response is non-empty. -/
theorem claim_C4_nonempty_summary_when_provider_text_nonempty
    (key c text : String) (hkey : key ≠ "") (hc : c ≠ "") (ht : text ≠ "") :
    (POST (some key) (RequestBody.parsed (some c))
        (ProviderResult.success text)).body = ResponseBody.summaryBody text ∧
    text ≠ "" := by
  refine ⟨?_, ht⟩
  simp [POST, jsFalsyStr, hkey, hc]

/-- Witness for the amended C4 at concrete inputs. -/
theorem claim_C4_witness :
    (POST (some "k") (RequestBody.parsed (some "hello"))
        (ProviderResult.success "digest")).body =
      ResponseBody.summaryBody "digest" ∧ ("digest" : String) ≠ "" :=
  claim_C4_nonempty_summary_when_provider_text_nonempty "k" "hello" "digest"
    (by decide) (by decide) (by decide)

/-- C9: the handler is total at its interface — every input is answered with
a JSON response of status 200, 400 or 500 — and a request body that is not
valid JSON is caught by the surrounding `try`/`catch` and answered with
status 500 (not 400) carrying the parse error's message. -/
theorem claim_C9_total_interface (geminiApiKey : Option String)
    (body : RequestBody) (provider : ProviderResult) :
    ((POST geminiApiKey body provider).status = 200 ∨
      (POST geminiApiKey body provider).status = 400 ∨
      (POST geminiApiKey body provider).status = 500) ∧
    (∀ msg, body = RequestBody.invalidJson msg →
      POST geminiApiKey body provider = ⟨500, ResponseBody.errorBody msg, []⟩) := by
  constructor
  · cases body with
    | invalidJson msg => simp [POST]
    | parsed content =>
      cases hc : jsFalsyStr content <;> cases hk : jsFalsyStr geminiApiKey <;>
        cases provider <;> simp [POST, hc, hk]
  · intro msg hm
    subst hm
    rfl

/-- Witness for C9 at a concrete invalid-JSON input. -/
theorem claim_C9_witness :
    (((POST none (RequestBody.invalidJson "Unexpected token")
          ProviderResult.errorNonError).status = 200 ∨
      (POST none (RequestBody.invalidJson "Unexpected token")
          ProviderResult.errorNonError).status = 400 ∨
      (POST none (RequestBody.invalidJson "Unexpected token")
          ProviderResult.errorNonError).status = 500) ∧
    (∀ msg, RequestBody.invalidJson "Unexpected token" = RequestBody.invalidJson msg →
      POST none (RequestBody.invalidJson "Unexpected token")
          ProviderResult.errorNonError =
        ⟨500, ResponseBody.errorBody msg, []⟩)) :=
  claim_C9_total_interface none (RequestBody.invalidJson "Unexpected token")
    ProviderResult.errorNonError

/-!
Embedding of the memo detail modal `src/components/MemoDetailModal.tsx`.

The component's local state is `summary` and `isSummarizing`; `isOpen` and
`memo` are props from the parent. `inflight` is a ghost counter of
summarization requests that have been issued and have not yet settled
(their `finally` block has not run). Handlers invoke the collaborators
`onClose`, `onEdit`, `onDelete` — a step records the invoked callbacks in
order, plus the content of the HTTP request it issues, if any.

DOM/React semantics reflected in the step function: the component renders
`null` unless `isOpen` and `memo` are both present, so its click handlers
can only fire when both hold; the document-level keydown listener is
registered exactly while `isOpen`; the summarize button is rendered only
while `summary` is empty and is disabled while `isSummarizing`, and a
disabled button fires no click; React flushes the re-render from a state
update before the next browser event is delivered.
-/

/-- A memo as used by the modal (fields of the `Memo` type: identifier,
title, markdown content, category, tags, timestamps). -/
structure Memo where
  id : String
  title : String
  content : String
  category : String
  tags : List String
  createdAt : String
  updatedAt : String
deriving DecidableEq, Repr

/-- The modal's visible props and local state, plus the ghost in-flight
request counter. -/
structure ModalState where
  isOpen : Bool
  memo : Option Memo
  summary : String
  isSummarizing : Bool
  inflight : Nat
deriving DecidableEq, Repr

/-- A collaborator invocation performed by a handler. -/
inductive Callback where
  | onClose
  | onEdit (memo : Memo)
  | onDelete (id : String)
deriving DecidableEq, Repr

/-- The observable output of one step: the collaborator callbacks invoked,
in order, and the `content` of the HTTP request issued to `/api/summarize`,
if one was issued. -/
structure StepOut where
  callbacks : List Callback
  request : Option String
deriving DecidableEq, Repr

/-- The silent output: no callback invoked, no request issued. -/
def noOut : StepOut := ⟨[], none⟩

/-- Outcome of a summarize fetch as seen by the component: `response.ok`
with a summary, an HTTP error body (alert shown), or a thrown network
error (alert shown). -/
inductive FetchOutcome where
  | ok (summary : String)
  | httpError (errMsg : Option String)
  | networkError
deriving DecidableEq, Repr

/-- An event delivered to the mounted component: a props update from the
parent, a document keydown, a click on the backdrop (carrying whether
`e.target === e.currentTarget`), a click on the delete button (carrying the
user's answer to `window.confirm`), a click on the edit button, a click on
the summarize button, or the settling of an in-flight fetch. -/
inductive Event where
  | propsUpdate (newOpen : Bool) (newMemo : Option Memo)
  | keydown (key : String)
  | backdropClick (targetIsBackdrop : Bool)
  | deleteClick (confirmed : Bool)
  | editClick
  | summarizeClick
  | settle (outcome : FetchOutcome)
deriving DecidableEq, Repr

/-- The `handleSummarize` function: early return when the memo is missing
or its content is falsy; otherwise set `isSummarizing` and issue the fetch
with the memo's content (the ghost counter records the request as
in-flight). -/
def handleSummarize (s : ModalState) : ModalState × StepOut :=
  match s.memo with
  | none => (s, noOut)
  | some m =>
    if m.content = "" then (s, noOut)
    else ({s with isSummarizing := true, inflight := s.inflight + 1},
          ⟨[], some m.content⟩)

/-- The `handleDelete` function: when a memo is present and the user
confirms, invoke `onDelete` with the memo's id and then `onClose`;
otherwise do nothing. -/
def handleDelete (s : ModalState) (confirmed : Bool) : ModalState × StepOut :=
  match s.memo with
  | none => (s, noOut)
  | some m =>
    if confirmed then (s, ⟨[.onDelete m.id, .onClose], none⟩) else (s, noOut)

/-- The `handleEdit` function: when a memo is present, invoke `onEdit` with
the memo and then `onClose`. -/
def handleEdit (s : ModalState) : ModalState × StepOut :=
  match s.memo with
  | none => (s, noOut)
  | some m => (s, ⟨[.onEdit m, .onClose], none⟩)

/-- Completion of the summarize fetch (`then`/`catch`/`finally` of
`handleSummarize`): on `response.ok` store the summary, otherwise leave it;
in every case the `finally` clears `isSummarizing`, and the ghost counter
drops. -/
def settleSummarize (s : ModalState) (o : FetchOutcome) : ModalState :=
  match o with
  | .ok sum => {s with summary := sum, isSummarizing := false,
                       inflight := s.inflight - 1}
  | .httpError _ => {s with isSummarizing := false, inflight := s.inflight - 1}
  | .networkError => {s with isSummarizing := false, inflight := s.inflight - 1}

/-- One step of the mounted component. `propsUpdate` re-runs the
`useEffect` when `isOpen` changed, whose body resets `summary` to the empty
string when now open. The keydown listener fires `onClose` on Escape only
while open. Click events require the component to be rendered (`isOpen` and
a memo), and the summarize click additionally requires its button to be
rendered (empty `summary`) and enabled (not `isSummarizing`). A `settle`
event is a no-op when nothing is in flight. -/
def step (s : ModalState) : Event → ModalState × StepOut
  | .propsUpdate o m =>
    let s' := {s with isOpen := o, memo := m}
    if o && !s.isOpen then ({s' with summary := ""}, noOut) else (s', noOut)
  | .keydown k =>
    if s.isOpen && (k == "Escape") then (s, ⟨[.onClose], none⟩) else (s, noOut)
  | .backdropClick t =>
    if s.isOpen && s.memo.isSome && t then (s, ⟨[.onClose], none⟩)
    else (s, noOut)
  | .deleteClick c =>
    if s.isOpen && s.memo.isSome then handleDelete s c else (s, noOut)
  | .editClick =>
    if s.isOpen && s.memo.isSome then handleEdit s else (s, noOut)
  | .summarizeClick =>
    if s.isOpen && s.memo.isSome && (s.summary == "") && !s.isSummarizing
    then handleSummarize s else (s, noOut)
  | .settle o =>
    if s.inflight = 0 then (s, noOut) else (settleSummarize s o, noOut)

/-- The states a mounted modal instance can be in: it mounts with any props,
empty `summary`, clear `isSummarizing` flag and nothing in flight, and then
takes `step`s. -/
inductive Reachable : ModalState → Prop
  | init (o : Bool) (m : Option Memo) : Reachable ⟨o, m, "", false, 0⟩
  | next (s : ModalState) (e : Event) : Reachable s → Reachable (step s e).1

/-- C5: whenever the modal transitions to open (the `isOpen` prop goes from
false to true, with any memo — in particular a new one), the `useEffect`
body runs and resets the transient `summary` state to the empty string, so
no previously displayed summary is shown; the other fields take the new
props. -/
theorem claim_C5_open_resets_summary (s : ModalState) (m : Option Memo)
    (hclosed : s.isOpen = false) :
    (step s (Event.propsUpdate true m)).1.summary = "" ∧
    (step s (Event.propsUpdate true m)).1.isOpen = true ∧
    (step s (Event.propsUpdate true m)).1.memo = m := by
  simp [step, hclosed]

/-- Witness for C5: a closed modal holding a stale summary is opened with a
new memo and the summary is cleared. -/
theorem claim_C5_witness :
    (step ⟨false, none, "stale summary", false, 0⟩
        (Event.propsUpdate true none)).1.summary = "" ∧
    (step ⟨false, none, "stale summary", false, 0⟩
        (Event.propsUpdate true none)).1.isOpen = true ∧
    (step ⟨false, none, "stale summary", false, 0⟩
        (Event.propsUpdate true none)).1.memo = none :=
  claim_C5_open_resets_summary ⟨false, none, "stale summary", false, 0⟩ none rfl

/-- C6: while the modal is open (and rendered, i.e. a memo is present),
pressing Escape invokes `onClose`, clicking the backdrop itself (the event
target equals the backdrop element) invokes `onClose`, and a click inside
the modal content (target differs from the backdrop) invokes nothing. -/
theorem claim_C6_escape_and_backdrop_close (s : ModalState) (m : Memo)
    (hopen : s.isOpen = true) (hm : s.memo = some m) :
    (step s (Event.keydown "Escape")).2.callbacks = [Callback.onClose] ∧
    (step s (Event.backdropClick true)).2.callbacks = [Callback.onClose] ∧
    (step s (Event.backdropClick false)).2.callbacks = [] := by
  simp [step, hopen, hm, noOut]

/-- Witness for C6 at a concrete open state. -/
theorem claim_C6_witness :
    (step ⟨true, some ⟨"id1", "t", "c", "personal", [], "d1", "d1"⟩, "", false, 0⟩
        (Event.keydown "Escape")).2.callbacks = [Callback.onClose] ∧
    (step ⟨true, some ⟨"id1", "t", "c", "personal", [], "d1", "d1"⟩, "", false, 0⟩
        (Event.backdropClick true)).2.callbacks = [Callback.onClose] ∧
    (step ⟨true, some ⟨"id1", "t", "c", "personal", [], "d1", "d1"⟩, "", false, 0⟩
        (Event.backdropClick false)).2.callbacks = [] :=
  claim_C6_escape_and_backdrop_close
    ⟨true, some ⟨"id1", "t", "c", "personal", [], "d1", "d1"⟩, "", false, 0⟩
    ⟨"id1", "t", "c", "personal", [], "d1", "d1"⟩ rfl rfl

/-- C7: on an open modal with a memo present, a delete click with the
confirmation accepted invokes exactly `onDelete` with the memo's id and
then `onClose` (each exactly once, in that order), while a delete click
with the confirmation cancelled invokes no callback at all and leaves the
component state unchanged (the view stays open). -/
theorem claim_C7_delete_confirmation (s : ModalState) (m : Memo)
    (hopen : s.isOpen = true) (hm : s.memo = some m) :
    step s (Event.deleteClick true) =
      (s, ⟨[Callback.onDelete m.id, Callback.onClose], none⟩) ∧
    step s (Event.deleteClick false) = (s, ⟨[], none⟩) := by
  simp [step, hopen, hm, handleDelete, noOut]

/-- Witness for C7 at a concrete open state. -/
theorem claim_C7_witness :
    step ⟨true, some ⟨"id1", "t", "c", "personal", [], "d1", "d1"⟩, "", false, 0⟩
        (Event.deleteClick true) =
      (⟨true, some ⟨"id1", "t", "c", "personal", [], "d1", "d1"⟩, "", false, 0⟩,
        ⟨[Callback.onDelete "id1", Callback.onClose], none⟩) ∧
    step ⟨true, some ⟨"id1", "t", "c", "personal", [], "d1", "d1"⟩, "", false, 0⟩
        (Event.deleteClick false) =
      (⟨true, some ⟨"id1", "t", "c", "personal", [], "d1", "d1"⟩, "", false, 0⟩,
        ⟨[], none⟩) :=
  claim_C7_delete_confirmation
    ⟨true, some ⟨"id1", "t", "c", "personal", [], "d1", "d1"⟩, "", false, 0⟩
    ⟨"id1", "t", "c", "personal", [], "d1", "d1"⟩ rfl rfl

/-- C10: invoking `handleSummarize` when the memo reference is null or the
memo's content is empty is a complete no-op: the component state (including
`summary` and `isSummarizing`) is unchanged and no HTTP request is issued. -/
theorem claim_C10_summarize_noop_without_content (s : ModalState)
    (h : s.memo = none ∨ ∃ m, s.memo = some m ∧ m.content = "") :
    handleSummarize s = (s, ⟨[], none⟩) := by
  rcases h with h | ⟨m, hm, hc⟩
  · simp [handleSummarize, h, noOut]
  · simp [handleSummarize, hm, hc, noOut]

/-- Witness for C10 at a concrete state whose memo has empty content. -/
theorem claim_C10_witness :
    handleSummarize
        ⟨true, some ⟨"id1", "t", "", "personal", [], "d1", "d1"⟩, "", false, 0⟩ =
      (⟨true, some ⟨"id1", "t", "", "personal", [], "d1", "d1"⟩, "", false, 0⟩,
        ⟨[], none⟩) :=
  claim_C10_summarize_noop_without_content
    ⟨true, some ⟨"id1", "t", "", "personal", [], "d1", "d1"⟩, "", false, 0⟩
    (Or.inr ⟨⟨"id1", "t", "", "personal", [], "d1", "d1"⟩, rfl, rfl⟩)

/-- State-preservation of `handleDelete`: it never mutates component state. -/
lemma handleDelete_fst (s : ModalState) (c : Bool) : (handleDelete s c).1 = s := by
  unfold handleDelete
  cases s.memo with
  | none => rfl
  | some m => cases c <;> rfl

/-- State-preservation of `handleEdit`: it never mutates component state. -/
lemma handleEdit_fst (s : ModalState) : (handleEdit s).1 = s := by
  unfold handleEdit
  cases s.memo <;> rfl

/-- Invariant of the mounted component: the ghost in-flight counter always
agrees with the `isSummarizing` flag — a request is in flight exactly while
the flag is set. -/
lemma reachable_inflight_matches_flag (s : ModalState) (h : Reachable s) :
    s.inflight = (if s.isSummarizing then 1 else 0) := by
  induction h with
  | init o m => rfl
  | next s e _ ih =>
    cases e with
    | propsUpdate o m =>
      simp only [step]
      split <;> simpa using ih
    | keydown k =>
      simp only [step]
      split <;> exact ih
    | backdropClick t =>
      simp only [step]
      split <;> exact ih
    | deleteClick c =>
      simp only [step]
      split
      · rw [handleDelete_fst]; exact ih
      · exact ih
    | editClick =>
      simp only [step]
      split
      · rw [handleEdit_fst]; exact ih
      · exact ih
    | summarizeClick =>
      simp only [step]
      split
      · rename_i hguard
        have hflag : s.isSummarizing = false := by
          simp only [Bool.and_eq_true, Bool.not_eq_true'] at hguard
          exact hguard.2
        have hzero : s.inflight = 0 := by rw [ih, hflag]; simp
        unfold handleSummarize
        cases hm : s.memo with
        | none => exact ih
        | some m =>
          by_cases hc : m.content = ""
          · simp only [hc, if_pos rfl]; exact ih
          · simp only [if_neg hc]
            simpa using hzero
      · exact ih
    | settle o =>
      simp only [step]
      split
      · exact ih
      · rename_i hne
        have hle : s.inflight ≤ 1 := by
          rw [ih]; split <;> simp
        cases o <;> simp only [settleSummarize] <;> simp <;> omega

/-- C8: in every reachable state of a mounted modal instance at most one
summarization request is in flight; the mechanism is the `isSummarizing`
flag — while it is set, a click on the (disabled, hence inert) summarize
button changes nothing and issues no request, so a second request cannot
start before the first settles. -/
theorem claim_C8_at_most_one_inflight (s : ModalState) (h : Reachable s) :
    s.inflight ≤ 1 ∧
    (s.isSummarizing = true →
      (step s Event.summarizeClick).1 = s ∧
      (step s Event.summarizeClick).2.request = none) := by
  have hinv := reachable_inflight_matches_flag s h
  refine ⟨?_, ?_⟩
  · rw [hinv]; split <;> simp
  · intro hflag
    simp [step, hflag, noOut]

/-- Witness for C8 at the freshly mounted state. -/
theorem claim_C8_witness :
    (⟨false, none, "", false, 0⟩ : ModalState).inflight ≤ 1 ∧
    ((⟨false, none, "", false, 0⟩ : ModalState).isSummarizing = true →
      (step ⟨false, none, "", false, 0⟩ Event.summarizeClick).1 =
        ⟨false, none, "", false, 0⟩ ∧
      (step ⟨false, none, "", false, 0⟩ Event.summarizeClick).2.request = none) :=
  claim_C8_at_most_one_inflight ⟨false, none, "", false, 0⟩
    (Reachable.init false none)
